import Mathlib

/-!
Shallow embedding of `internal/provider/resource_team_label.go` from the
`terraform-provider-linear` repository: the Terraform resource adapter for
Linear team labels (Create / Read / Update / Delete / ImportState), together
with the few host-framework behaviours the verified claims depend on.

Remote GraphQL calls are embedded by passing the server as a function
argument (`IssueLabelCreateInput → Except String IssueLabel`, …); each
operation records the calls it performs in a `calls` trace, its user-facing
diagnostics in `diags`, and the state it writes (if any) in `state`.
-/

/-- Embedding of the Terraform framework value `types.String`: a string
attribute value carrying `Unknown` and `Null` flags next to its `Value`
(when a flag is set, Go leaves `Value` at its zero value `""`, but the
struct itself does not enforce that, so neither does the embedding). -/
structure TFString where
  unknown : Bool
  null : Bool
  value : String
  deriving DecidableEq, Repr

/-- The Go composite literal `types.String{Value: v}`: known, non-null. -/
def mkString (v : String) : TFString :=
  { unknown := false, null := false, value := v }

/-- `TeamLabelResourceModel` (resource_team_label.go lines 30–36). -/
structure TeamLabelResourceModel where
  id : TFString
  name : TFString
  description : TFString
  color : TFString
  teamId : TFString
  deriving DecidableEq, Repr

/-- The `Team` object nested in a label response; only its `Id` is read. -/
structure TeamRef where
  id : String
  deriving DecidableEq, Repr

/-- The label object of the generated GraphQL responses, restricted to the
fields this file reads: `Id`, `Name`, `Description *string`, `Color *string`,
`Team *{Id}` (Go nil pointers become `none`). -/
structure IssueLabel where
  id : String
  name : String
  description : Option String
  color : Option String
  team : Option TeamRef
  deriving DecidableEq, Repr

/-- A node of the `findTeamLabel` search response (`IssueLabels.Nodes`);
only its `Id` is read. -/
structure IssueLabelNode where
  id : String
  deriving DecidableEq, Repr

/-- `IssueLabelCreateInput` as populated by `Create` (lines 127–138):
Go pointer fields become `Option String`, nil = `none`. -/
structure IssueLabelCreateInput where
  name : String
  teamId : Option String
  description : Option String
  color : Option String
  deriving DecidableEq, Repr

/-- `IssueLabelUpdateInput` as populated by `Update` (lines 214–224). -/
structure IssueLabelUpdateInput where
  name : String
  description : Option String
  color : Option String
  deriving DecidableEq, Repr

/-- A user-facing diagnostic added via `resp.Diagnostics.AddError`. -/
structure Diagnostic where
  summary : String
  detail : String
  deriving DecidableEq, Repr

/-- A remote GraphQL invocation, recorded in the order performed. -/
inductive RemoteCall where
  | createLabel (input : IssueLabelCreateInput)
  | getLabel (labelId : String)
  | updateLabel (input : IssueLabelUpdateInput) (labelId : String)
  | deleteLabel (labelId : String)
  | findTeamLabel (labelName teamKey : String)
  deriving DecidableEq, Repr

/-- Result of one CRUD operation: the diagnostics it added, the state it
wrote via `resp.State.Set` (`none` when it returned without writing), and
the trace of remote calls it performed. -/
structure OpResult where
  diags : List Diagnostic
  state : Option TeamLabelResourceModel
  calls : List RemoteCall
  deriving DecidableEq, Repr

/-- Result of `Delete`, which never writes state. -/
structure DeleteResult where
  diags : List Diagnostic
  calls : List RemoteCall
  deriving DecidableEq, Repr

/-- Result of `ImportState`: it writes at most the `id` attribute
(via `resp.State.SetAttribute(ctx, path.Root("id"), …)`). -/
structure ImportResult where
  diags : List Diagnostic
  stateId : Option String
  calls : List RemoteCall
  deriving DecidableEq, Repr

/-- The state-reconciliation block shared verbatim by `Create`
(lines 149–164), `Read` (lines 185–200) and `Update` (lines 235–250):
`Id` and `Name` are always overwritten from the response; `Description`,
`Color` and `TeamId` are overwritten only when the corresponding response
pointer is non-nil, otherwise the prior `data` value is kept. -/
def reconcile (data : TeamLabelResourceModel) (issueLabel : IssueLabel) :
    TeamLabelResourceModel :=
  { id := mkString issueLabel.id
    name := mkString issueLabel.name
    description :=
      match issueLabel.description with
      | some d => mkString d
      | none => data.description
    color :=
      match issueLabel.color with
      | some c => mkString c
      | none => data.color
    teamId :=
      match issueLabel.team with
      | some t => mkString t.id
      | none => data.teamId }

/-- The `IssueLabelCreateInput` built by `Create` (lines 127–138):
`Name` and `TeamId` always set; `Description` set iff the plan value is not
null; `Color` set iff the plan value is not unknown. -/
def createInput (data : TeamLabelResourceModel) : IssueLabelCreateInput :=
  { name := data.name.value
    teamId := some data.teamId.value
    description := if data.description.null then none else some data.description.value
    color := if data.color.unknown then none else some data.color.value }

/-- The `IssueLabelUpdateInput` built by `Update` (lines 214–224). -/
def updateInput (data : TeamLabelResourceModel) : IssueLabelUpdateInput :=
  { name := data.name.value
    description := if data.description.null then none else some data.description.value
    color := if data.color.unknown then none else some data.color.value }

/-- `Create` (lines 118–167), with the plan already decoded into `plan`
(a typed plan cannot fail to decode in the embedding) and the remote
`createLabel` call supplied as `server`. -/
def createOp (plan : TeamLabelResourceModel)
    (server : IssueLabelCreateInput → Except String IssueLabel) : OpResult :=
  let input := createInput plan
  match server input with
  | Except.error err =>
      { diags := [{ summary := "Client Error"
                    detail := "Unable to create team label, got error: " ++ err }]
        state := none
        calls := [RemoteCall.createLabel input] }
  | Except.ok issueLabel =>
      { diags := []
        state := some (reconcile plan issueLabel)
        calls := [RemoteCall.createLabel input] }

/-- `Read` (lines 169–203): fetches by the prior state's `Id` and
reconciles the prior state against the response. -/
def readOp (data : TeamLabelResourceModel)
    (server : String → Except String IssueLabel) : OpResult :=
  match server data.id.value with
  | Except.error err =>
      { diags := [{ summary := "Client Error"
                    detail := "Unable to read team label, got error: " ++ err }]
        state := none
        calls := [RemoteCall.getLabel data.id.value] }
  | Except.ok issueLabel =>
      { diags := []
        state := some (reconcile data issueLabel)
        calls := [RemoteCall.getLabel data.id.value] }

/-- `Update` (lines 205–253): builds the update input from the plan and
keys the remote call by the plan's `Id`. -/
def updateOp (plan : TeamLabelResourceModel)
    (server : IssueLabelUpdateInput → String → Except String IssueLabel) : OpResult :=
  let input := updateInput plan
  match server input plan.id.value with
  | Except.error err =>
      { diags := [{ summary := "Client Error"
                    detail := "Unable to update team label, got error: " ++ err }]
        state := none
        calls := [RemoteCall.updateLabel input plan.id.value] }
  | Except.ok issueLabel =>
      { diags := []
        state := some (reconcile plan issueLabel)
        calls := [RemoteCall.updateLabel input plan.id.value] }

/-- `Delete` (lines 255–272): the delete response carries no data the code
reads, so the server returns `Unit` on success. -/
def deleteOp (data : TeamLabelResourceModel)
    (server : String → Except String Unit) : DeleteResult :=
  match server data.id.value with
  | Except.error err =>
      { diags := [{ summary := "Client Error"
                    detail := "Unable to delete team label, got error: " ++ err }]
        calls := [RemoteCall.deleteLabel data.id.value] }
  | Except.ok _ =>
      { diags := []
        calls := [RemoteCall.deleteLabel data.id.value] }

/-- Helper for `goSplit`: splits a character list at every `':'`,
accumulating the current segment in reverse. -/
def splitChars : List Char → List Char → List String
  | [], acc => [String.mk acc.reverse]
  | c :: cs, acc =>
      if c = ':' then String.mk acc.reverse :: splitChars cs []
      else splitChars cs (c :: acc)

/-- Go's `strings.Split(s, ":")`: the segments of `s` between occurrences
of `':'` (always at least one segment; `""` splits to `[""]`). -/
def goSplit (s : String) : List String :=
  splitChars s.toList []

/-- Go's `%q` applied to the import identifier in the format-error message
(the embedding does not add escape sequences inside the quotes). -/
def goQuote (s : String) : String :=
  "\"" ++ s ++ "\""

/-- The body of `ImportState` after the split (lines 277–298), taking the
already-computed `parts`: exactly two parts, both non-empty, are required
(else the format error and no remote call); then `findTeamLabel` must
succeed with exactly one node (`len(...Nodes) != 1` fails with the
not-found message), whose `Id` is seeded into state. -/
def importFromParts (reqID : String) (parts : List String)
    (server : String → String → Except String (List IssueLabelNode)) : ImportResult :=
  match parts with
  | [p0, p1] =>
      if p0 = "" ∨ p1 = "" then
        { diags := [{ summary := "Unexpected Import Identifier"
                      detail := "Expected import identifier with format: label_name:team_key. Got: "
                        ++ goQuote reqID }]
          stateId := none
          calls := [] }
      else
        match server p0 p1 with
        | Except.error err =>
            { diags := [{ summary := "Client Error"
                          detail := "Unable to import team label, got error: " ++ err }]
              stateId := none
              calls := [RemoteCall.findTeamLabel p0 p1] }
        | Except.ok nodes =>
            match nodes with
            | [node] =>
                { diags := []
                  stateId := some node.id
                  calls := [RemoteCall.findTeamLabel p0 p1] }
            | _ =>
                { diags := [{ summary := "Client Error"
                              detail := "Unable to import team label, got error: label not found" }]
                  stateId := none
                  calls := [RemoteCall.findTeamLabel p0 p1] }
  | _ =>
      { diags := [{ summary := "Unexpected Import Identifier"
                    detail := "Expected import identifier with format: label_name:team_key. Got: "
                      ++ goQuote reqID }]
        stateId := none
        calls := [] }

/-- `ImportState` (lines 274–299): split `req.ID` on `":"` and continue
with `importFromParts`. -/
def importStateOp (reqID : String)
    (server : String → String → Except String (List IssueLabelNode)) : ImportResult :=
  importFromParts reqID (goSplit reqID) server

/-- Modelled from the spec: a `validators.Match(pattern)` attribute
validator ("Color must match its validation pattern or schema validation
rejects it before any remote call"). The validator implementation and the
bodies of `colorRegex()` / `uuidRegex()` live outside `src/`, so the
pattern is a parameter; a Match validator skips null and unknown values
and tests the pattern on known values. -/
def matchValidator (pat : String → Bool) (v : TFString) : Bool :=
  if v.null || v.unknown then true else pat v.value

/-- Modelled from the spec: the `validators.MinLength(n)` validator on
`name` ("name (required, non-empty)"); skips null and unknown values. -/
def minLengthValidator (n : Nat) (v : TFString) : Bool :=
  if v.null || v.unknown then true else n ≤ v.value.length

/-- Modelled from the spec: schema validation of a configuration against
the validators declared in `GetSchema` (lines 54–93): `MinLength(1)` on
`name`, `Match(colorRegex())` on `color`, `Match(uuidRegex())` on
`team_id`. -/
def validateModel (colorPat uuidPat : String → Bool)
    (m : TeamLabelResourceModel) : Bool :=
  minLengthValidator 1 m.name && matchValidator colorPat m.color
    && matchValidator uuidPat m.teamId

/-- Modelled from the spec: the host framework runs schema validation
before `Create`; a configuration rejected by a validator produces a
diagnostic and no remote call is made. -/
def applyCreate (colorPat uuidPat : String → Bool)
    (plan : TeamLabelResourceModel)
    (server : IssueLabelCreateInput → Except String IssueLabel) : OpResult :=
  if validateModel colorPat uuidPat plan then createOp plan server
  else
    { diags := [{ summary := "Invalid Attribute Value"
                  detail := "schema validation rejected the configuration" }]
      state := none
      calls := [] }

/-- Modelled from the spec: the host framework runs schema validation
before `Update`, as for `applyCreate`. -/
def applyUpdate (colorPat uuidPat : String → Bool)
    (plan : TeamLabelResourceModel)
    (server : IssueLabelUpdateInput → String → Except String IssueLabel) : OpResult :=
  if validateModel colorPat uuidPat plan then updateOp plan server
  else
    { diags := [{ summary := "Invalid Attribute Value"
                  detail := "schema validation rejected the configuration" }]
      state := none
      calls := [] }

/-- Helper: reconciling an already-reconciled state against the same
response changes nothing. -/
theorem reconcile_reconcile_same (p : TeamLabelResourceModel) (l : IssueLabel) :
    reconcile (reconcile p l) l = reconcile p l := by
  cases hd : l.description <;> cases hc : l.color <;> cases ht : l.team <;>
    simp [reconcile, hd, hc, ht]

/-- C1 is refuted: after a successful Create whose response carries a nil
`Description` pointer, the description written to state is the plan's value,
not the response's — two plans differing only in their planned description
yield different states under the identical server response, so the state is
not equal to the server response field-for-field. -/
theorem c1_counterexample :
    (createOp ⟨mkString "", mkString "n", mkString "keep-a", mkString "c", mkString "t"⟩
        (fun _ => Except.ok ⟨"ID", "N", none, none, none⟩)).state ≠
      (createOp ⟨mkString "", mkString "n", mkString "keep-b", mkString "c", mkString "t"⟩
        (fun _ => Except.ok ⟨"ID", "N", none, none, none⟩)).state := by
  decide

/-- C1 (amended): after every successful Create and Update the `id` and
`name` written to state equal the response's values; `description`, `color`
and `team_id` equal the response's value exactly when the response carries
one (non-nil pointer), and otherwise retain the plan's value. -/
theorem c1_state_reconciliation (plan : TeamLabelResourceModel) (l : IssueLabel) :
    (createOp plan (fun _ => Except.ok l)).state = some (reconcile plan l) ∧
    (updateOp plan (fun _ _ => Except.ok l)).state = some (reconcile plan l) ∧
    (reconcile plan l).id = mkString l.id ∧
    (reconcile plan l).name = mkString l.name ∧
    (∀ d, l.description = some d → (reconcile plan l).description = mkString d) ∧
    (l.description = none → (reconcile plan l).description = plan.description) ∧
    (∀ c, l.color = some c → (reconcile plan l).color = mkString c) ∧
    (l.color = none → (reconcile plan l).color = plan.color) ∧
    (∀ t, l.team = some t → (reconcile plan l).teamId = mkString t.id) ∧
    (l.team = none → (reconcile plan l).teamId = plan.teamId) := by
  refine ⟨rfl, rfl, rfl, rfl, ?_, ?_, ?_, ?_, ?_, ?_⟩
  · intro d hd; simp [reconcile, hd]
  · intro hd; simp [reconcile, hd]
  · intro c hc; simp [reconcile, hc]
  · intro hc; simp [reconcile, hc]
  · intro t ht; simp [reconcile, ht]
  · intro ht; simp [reconcile, ht]

/-- C1 witness: the amended theorem applied at a concrete plan and
response, each conditional clause discharged. -/
theorem c1_state_reconciliation_witness :
    (reconcile ⟨mkString "", mkString "n", mkString "p", mkString "q", mkString "t"⟩
        ⟨"ID", "N", some "D", none, none⟩).description = mkString "D" ∧
    (reconcile ⟨mkString "", mkString "n", mkString "p", mkString "q", mkString "t"⟩
        ⟨"ID", "N", some "D", none, none⟩).color = mkString "q" :=
  ⟨(c1_state_reconciliation ⟨mkString "", mkString "n", mkString "p", mkString "q", mkString "t"⟩
      ⟨"ID", "N", some "D", none, none⟩).2.2.2.2.1 "D" rfl,
   (c1_state_reconciliation ⟨mkString "", mkString "n", mkString "p", mkString "q", mkString "t"⟩
      ⟨"ID", "N", some "D", none, none⟩).2.2.2.2.2.2.2.1 rfl⟩

/-- C2 is refuted: when the remote fetch fails because the label does not
exist, Read surfaces exactly the generic client-error diagnostic — same
summary ("Client Error") and same detail template as any other remote
failure — so no distinct not-found error exists in Read. -/
theorem c2_counterexample :
    (readOp ⟨mkString "lbl-1", mkString "n", mkString "", mkString "", mkString "t"⟩
        (fun _ => Except.error "label not found")).diags =
      [{ summary := "Client Error"
         detail := "Unable to read team label, got error: label not found" }] ∧
    (readOp ⟨mkString "lbl-1", mkString "n", mkString "", mkString "", mkString "t"⟩
        (fun _ => Except.error "label not found")).diags.map Diagnostic.summary =
      (readOp ⟨mkString "lbl-1", mkString "n", mkString "", mkString "", mkString "t"⟩
        (fun _ => Except.error "connection refused")).diags.map Diagnostic.summary := by
  constructor
  · rfl
  · rfl

/-- C2 (amended): Read fetches the label by the identifier in the prior
state; when the remote fetch fails for any reason — a not-found condition
included — it adds the single generic client-error diagnostic embedding the
underlying error text and writes no state. Read has no separate not-found
diagnostic. -/
theorem c2_read_error_generic (st : TeamLabelResourceModel) (err : String)
    (server : String → Except String IssueLabel)
    (hsrv : server st.id.value = Except.error err) :
    (readOp st server).calls = [RemoteCall.getLabel st.id.value] ∧
    (readOp st server).diags =
      [{ summary := "Client Error"
         detail := "Unable to read team label, got error: " ++ err }] ∧
    (readOp st server).state = none := by
  simp [readOp, hsrv]

/-- C2 witness: the amended theorem applied at a concrete prior state and
failing server. -/
theorem c2_read_error_generic_witness :
    (readOp ⟨mkString "id-1", mkString "n", mkString "", mkString "", mkString "t"⟩
        (fun _ => Except.error "boom")).state = none :=
  (c2_read_error_generic ⟨mkString "id-1", mkString "n", mkString "", mkString "", mkString "t"⟩
      "boom" (fun _ => Except.error "boom") rfl).2.2

/-- C3: for valid inputs (non-empty name, pattern-matching color, UUID
team id), Create followed by Read against a server that stores and returns
exactly what was created leaves the state unchanged: the state after Read
equals the state after Create. -/
theorem c3_create_then_read (plan : TeamLabelResourceModel) (l : IssueLabel)
    (colorPat uuidPat : String → Bool)
    (hname : 1 ≤ plan.name.value.length)
    (hcolor : colorPat plan.color.value = true)
    (hteam : uuidPat plan.teamId.value = true) :
    ∀ st, (createOp plan (fun _ => Except.ok l)).state = some st →
      (readOp st (fun _ => Except.ok l)).state = some st := by
  intro st hst
  have hst' : st = reconcile plan l := by
    simpa [createOp] using hst.symm
  subst hst'
  simp [readOp, reconcile_reconcile_same]

/-- C3 witness: the theorem applied at a concrete valid plan, pattern
pair and echoing server. -/
theorem c3_create_then_read_witness :
    (readOp
        (reconcile
          ⟨mkString "", mkString "bug", mkString "", mkString "#aabbcc",
            mkString "00000000-0000-0000-0000-000000000000"⟩
          ⟨"ID", "bug", some "", some "#aabbcc", some ⟨"00000000-0000-0000-0000-000000000000"⟩⟩)
        (fun _ =>
          Except.ok ⟨"ID", "bug", some "", some "#aabbcc",
            some ⟨"00000000-0000-0000-0000-000000000000"⟩⟩)).state =
      some (reconcile
        ⟨mkString "", mkString "bug", mkString "", mkString "#aabbcc",
          mkString "00000000-0000-0000-0000-000000000000"⟩
        ⟨"ID", "bug", some "", some "#aabbcc",
          some ⟨"00000000-0000-0000-0000-000000000000"⟩⟩) :=
  c3_create_then_read
    ⟨mkString "", mkString "bug", mkString "", mkString "#aabbcc",
      mkString "00000000-0000-0000-0000-000000000000"⟩
    ⟨"ID", "bug", some "", some "#aabbcc", some ⟨"00000000-0000-0000-0000-000000000000"⟩⟩
    (fun s => s = "#aabbcc") (fun s => s.length = 36)
    (by decide) (by decide) (by decide)
    _ rfl

/-- Helper for C4: over an arbitrary parts list, `importFromParts` yields
the format error with an empty call trace exactly when the list is not two
non-empty strings. -/
theorem importFromParts_format_iff (reqID : String) (parts : List String)
    (server : String → String → Except String (List IssueLabelNode)) :
    ((importFromParts reqID parts server).diags.map Diagnostic.summary =
        ["Unexpected Import Identifier"] ∧
      (importFromParts reqID parts server).calls = [])
    ↔ ¬ ∃ a b, parts = [a, b] ∧ a ≠ "" ∧ b ≠ "" := by
  rcases parts with _ | ⟨a, _ | ⟨b, _ | ⟨c, rest⟩⟩⟩
  · simp [importFromParts]
  · simp [importFromParts]
  · by_cases ha : a = ""
    · subst ha
      simp [importFromParts]
    · by_cases hb : b = ""
      · subst hb
        simp [importFromParts, ha]
      · rcases hsrv : server a b with e | nodes
        · simp [importFromParts, ha, hb, hsrv]
        · rcases nodes with _ | ⟨n, _ | ⟨m, rest2⟩⟩ <;>
            simp [importFromParts, ha, hb, hsrv]
  · simp [importFromParts]

/-- C4: ImportState fails with the malformed-import-identifier (format)
error and performs no remote call if and only if splitting the identifier
on ":" does not yield exactly two non-empty parts. -/
theorem c4_import_format_iff (reqID : String)
    (server : String → String → Except String (List IssueLabelNode)) :
    ((importStateOp reqID server).diags.map Diagnostic.summary =
        ["Unexpected Import Identifier"] ∧
      (importStateOp reqID server).calls = [])
    ↔ ¬ ∃ a b, goSplit reqID = [a, b] ∧ a ≠ "" ∧ b ≠ "" :=
  importFromParts_format_iff reqID (goSplit reqID) server

/-- C5: for a well-formed import identifier whose remote search succeeds,
a match count different from one yields the not-found diagnostic and no
state write; exactly one match seeds that match's identifier into the
state's `id` attribute. -/
theorem c5_import_match_count (reqID a b : String)
    (server : String → String → Except String (List IssueLabelNode))
    (nodes : List IssueLabelNode)
    (hsplit : goSplit reqID = [a, b]) (ha : a ≠ "") (hb : b ≠ "")
    (hsrv : server a b = Except.ok nodes) :
    (nodes.length ≠ 1 →
      (importStateOp reqID server).diags =
        [{ summary := "Client Error"
           detail := "Unable to import team label, got error: label not found" }] ∧
      (importStateOp reqID server).stateId = none) ∧
    (∀ n, nodes = [n] →
      (importStateOp reqID server).diags = [] ∧
      (importStateOp reqID server).stateId = some n.id) := by
  unfold importStateOp
  rw [hsplit]
  rcases nodes with _ | ⟨n, _ | ⟨m, rest⟩⟩
  · refine ⟨fun _ => ?_, fun k hk => by simp at hk⟩
    simp [importFromParts, ha, hb, hsrv]
  · refine ⟨fun hlen => by simp at hlen, fun k hk => ?_⟩
    injection hk with h1 h2
    subst h1
    simp [importFromParts, ha, hb, hsrv]
  · refine ⟨fun _ => ?_, fun k hk => by simp at hk⟩
    simp [importFromParts, ha, hb, hsrv]

/-- C5 witness: the theorem applied to a well-formed identifier whose
search returns no nodes, and the zero-match clause discharged. -/
theorem c5_import_match_count_witness :
    (importStateOp "bug:ENG" (fun _ _ => Except.ok ([] : List IssueLabelNode))).stateId
      = none :=
  ((c5_import_match_count "bug:ENG" "bug" "ENG"
      (fun _ _ => Except.ok ([] : List IssueLabelNode)) []
      (by decide) (by decide) (by decide) rfl).1 (by decide)).2

/-- C6: whenever the remote call of Create, Read, Update or Delete fails,
the operation adds exactly one diagnostic — the generic client error whose
detail embeds the underlying error text — and the call trace holds exactly
one remote invocation (no retry). -/
theorem c6_remote_error_generic (plan st : TeamLabelResourceModel) (err : String)
    (csrv : IssueLabelCreateInput → Except String IssueLabel)
    (gsrv : String → Except String IssueLabel)
    (usrv : IssueLabelUpdateInput → String → Except String IssueLabel)
    (dsrv : String → Except String Unit)
    (hc : csrv (createInput plan) = Except.error err)
    (hg : gsrv st.id.value = Except.error err)
    (hu : usrv (updateInput plan) plan.id.value = Except.error err)
    (hd : dsrv st.id.value = Except.error err) :
    ((createOp plan csrv).diags =
        [{ summary := "Client Error"
           detail := "Unable to create team label, got error: " ++ err }] ∧
      (createOp plan csrv).calls.length = 1) ∧
    ((readOp st gsrv).diags =
        [{ summary := "Client Error"
           detail := "Unable to read team label, got error: " ++ err }] ∧
      (readOp st gsrv).calls.length = 1) ∧
    ((updateOp plan usrv).diags =
        [{ summary := "Client Error"
           detail := "Unable to update team label, got error: " ++ err }] ∧
      (updateOp plan usrv).calls.length = 1) ∧
    ((deleteOp st dsrv).diags =
        [{ summary := "Client Error"
           detail := "Unable to delete team label, got error: " ++ err }] ∧
      (deleteOp st dsrv).calls.length = 1) := by
  simp [createOp, readOp, updateOp, deleteOp, hc, hg, hu, hd]

/-- C6 witness: the theorem applied at a concrete plan, state and failing
servers. -/
theorem c6_remote_error_generic_witness :
    (createOp ⟨mkString "", mkString "n", mkString "d", mkString "c", mkString "t"⟩
        (fun _ => Except.error "rate limited")).calls.length = 1 :=
  (c6_remote_error_generic
      ⟨mkString "", mkString "n", mkString "d", mkString "c", mkString "t"⟩
      ⟨mkString "i", mkString "n", mkString "d", mkString "c", mkString "t"⟩
      "rate limited"
      (fun _ => Except.error "rate limited") (fun _ => Except.error "rate limited")
      (fun _ _ => Except.error "rate limited") (fun _ => Except.error "rate limited")
      rfl rfl rfl rfl).1.2

/-- C7: under the framework guarantee that the plan's computed `id` equals
the prior state's (UseStateForUnknown), a successful Update keys its remote
call by that identifier, and — the response echoing the updated label's id —
the id stored afterwards equals it. -/
theorem c7_update_preserves_id (priorId : String) (plan : TeamLabelResourceModel)
    (l : IssueLabel)
    (server : IssueLabelUpdateInput → String → Except String IssueLabel)
    (hplan : plan.id.value = priorId)
    (hsrv : server (updateInput plan) plan.id.value = Except.ok l)
    (hecho : l.id = priorId) :
    (updateOp plan server).calls =
      [RemoteCall.updateLabel (updateInput plan) priorId] ∧
    ∃ st, (updateOp plan server).state = some st ∧ st.id.value = priorId := by
  rw [hplan] at hsrv
  refine ⟨?_, reconcile plan l, ?_, ?_⟩
  · simp [updateOp, hplan, hsrv]
  · simp [updateOp, hplan, hsrv]
  · simp [reconcile, mkString, hecho]

/-- C7 witness: the theorem applied at a concrete plan and echoing
server. -/
theorem c7_update_preserves_id_witness :
    ∃ st,
      (updateOp ⟨mkString "lbl-9", mkString "n", mkString "d", mkString "c", mkString "t"⟩
          (fun _ _ => Except.ok ⟨"lbl-9", "n", none, none, none⟩)).state = some st ∧
      st.id.value = "lbl-9" :=
  (c7_update_preserves_id "lbl-9"
      ⟨mkString "lbl-9", mkString "n", mkString "d", mkString "c", mkString "t"⟩
      ⟨"lbl-9", "n", none, none, none⟩
      (fun _ _ => Except.ok ⟨"lbl-9", "n", none, none, none⟩)
      rfl rfl rfl).2

/-- C8: a configuration whose `color` is set (known and non-null) but does
not match the color pattern is rejected by schema validation, and neither
the Create nor the Update remote call is performed. -/
theorem c8_invalid_color_no_remote_call (colorPat uuidPat : String → Bool)
    (plan : TeamLabelResourceModel)
    (csrv : IssueLabelCreateInput → Except String IssueLabel)
    (usrv : IssueLabelUpdateInput → String → Except String IssueLabel)
    (hnull : plan.color.null = false) (hunk : plan.color.unknown = false)
    (hbad : colorPat plan.color.value = false) :
    (applyCreate colorPat uuidPat plan csrv).calls = [] ∧
    (applyCreate colorPat uuidPat plan csrv).diags ≠ [] ∧
    (applyCreate colorPat uuidPat plan csrv).state = none ∧
    (applyUpdate colorPat uuidPat plan usrv).calls = [] ∧
    (applyUpdate colorPat uuidPat plan usrv).diags ≠ [] ∧
    (applyUpdate colorPat uuidPat plan usrv).state = none := by
  have hv : validateModel colorPat uuidPat plan = false := by
    simp [validateModel, matchValidator, hnull, hunk, hbad]
  simp [applyCreate, applyUpdate, hv]

/-- C8 witness: the theorem applied at a concrete non-matching color. -/
theorem c8_invalid_color_no_remote_call_witness :
    (applyCreate (fun s => s == "#aabbcc") (fun _ => true)
        ⟨mkString "", mkString "n", mkString "d", mkString "red", mkString "t"⟩
        (fun _ => Except.ok ⟨"", "", none, none, none⟩)).calls = [] :=
  (c8_invalid_color_no_remote_call (fun s => s == "#aabbcc") (fun _ => true)
      ⟨mkString "", mkString "n", mkString "d", mkString "red", mkString "t"⟩
      (fun _ => Except.ok ⟨"", "", none, none, none⟩)
      (fun _ _ => Except.ok ⟨"", "", none, none, none⟩)
      rfl rfl (by decide)).1

/-- C9: when the remote call fails, Create, Read and Update return without
writing to the state container. -/
theorem c9_error_atomicity (plan st : TeamLabelResourceModel) (err : String)
    (csrv : IssueLabelCreateInput → Except String IssueLabel)
    (gsrv : String → Except String IssueLabel)
    (usrv : IssueLabelUpdateInput → String → Except String IssueLabel)
    (hc : csrv (createInput plan) = Except.error err)
    (hg : gsrv st.id.value = Except.error err)
    (hu : usrv (updateInput plan) plan.id.value = Except.error err) :
    (createOp plan csrv).state = none ∧
    (readOp st gsrv).state = none ∧
    (updateOp plan usrv).state = none := by
  simp [createOp, readOp, updateOp, hc, hg, hu]

/-- C9 witness: the theorem applied at a concrete plan, state and failing
servers. -/
theorem c9_error_atomicity_witness :
    (readOp ⟨mkString "i", mkString "n", mkString "d", mkString "c", mkString "t"⟩
        (fun _ => Except.error "down")).state = none :=
  (c9_error_atomicity
      ⟨mkString "", mkString "n", mkString "d", mkString "c", mkString "t"⟩
      ⟨mkString "i", mkString "n", mkString "d", mkString "c", mkString "t"⟩
      "down"
      (fun _ => Except.error "down") (fun _ => Except.error "down")
      (fun _ _ => Except.error "down")
      rfl rfl rfl).2.1

/-- C10: in both the create and the update input, the description is
included exactly when the planned description is non-null, while the color
is included exactly when the planned color is not unknown; a known-but-null
color (whose Go `Value` is the zero value) is therefore sent as a pointer
to the empty string rather than omitted. -/
theorem c10_optional_field_asymmetry (plan : TeamLabelResourceModel) :
    ((createInput plan).description = none ↔ plan.description.null = true) ∧
    ((createInput plan).color = none ↔ plan.color.unknown = true) ∧
    ((updateInput plan).description = none ↔ plan.description.null = true) ∧
    ((updateInput plan).color = none ↔ plan.color.unknown = true) ∧
    (plan.color.unknown = false → plan.color.null = true → plan.color.value = "" →
      (createInput plan).color = some "" ∧ (updateInput plan).color = some "") := by
  refine ⟨?_, ?_, ?_, ?_, ?_⟩
  · cases h : plan.description.null <;> simp [createInput, h]
  · cases h : plan.color.unknown <;> simp [createInput, h]
  · cases h : plan.description.null <;> simp [updateInput, h]
  · cases h : plan.color.unknown <;> simp [updateInput, h]
  · intro hu hn hv
    simp [createInput, updateInput, hu, hv]

/-- C10 witness: the theorem applied at a plan whose color is known but
null, discharging the conditional clause. -/
theorem c10_optional_field_asymmetry_witness :
    (createInput ⟨mkString "", mkString "n", mkString "d",
        { unknown := false, null := true, value := "" }, mkString "t"⟩).color = some "" ∧
    (updateInput ⟨mkString "", mkString "n", mkString "d",
        { unknown := false, null := true, value := "" }, mkString "t"⟩).color = some "" :=
  (c10_optional_field_asymmetry
      ⟨mkString "", mkString "n", mkString "d",
        { unknown := false, null := true, value := "" }, mkString "t"⟩).2.2.2.2
    rfl rfl rfl
